import Mathlib

/-!
Verification development for the CILisp evaluator core (src/cilisp.c,
src/cilisp.h): a shallow embedding of the data model (AST_NODE,
SYMBOL_TABLE_NODE, RET_VAL), the symbol-table operations (findSymbol,
addSymbolToTable) and the recursive evaluator (eval and the per-builtin
evalXxx functions), together with theorems about their behaviour.

Modelling conventions:
- C doubles are idealized as exact rationals extended with the two
  infinities and NaN (type `Dbl`); rounding and signed zero are not
  modelled.  The math-library primitives the C code calls (exp, exp2,
  pow, log, sqrt, cbrt) are external to the repository and are kept
  abstract, collected in a `MathLib` parameter.
- The C evaluator recurses through parent pointers into bound values and
  can diverge (a symbol bound to itself); evaluation is therefore
  fuel-indexed, returning `none` on fuel exhaustion.  The chain of
  enclosing scopes' symbol tables (what the parent walk of
  evalSymbolNode traverses) is passed explicitly as an environment,
  innermost scope first.
- Diagnostics printed through `warning` are modelled as a list of the
  exact message strings, returned alongside the value.
- Stack variables the C code reads before initializing (the `result.type`
  of evalAdd, evalMin and evalMax) are modelled by an explicit `junk`
  parameter holding the indeterminate initial contents.
-/

namespace CILisp

/-- Idealized IEEE-754 double: an exact rational, or an infinity, or NaN. -/
inductive Dbl where
  | num (q : ℚ)
  | posInf
  | negInf
  | nan
deriving DecidableEq

/-- Unary minus on doubles. -/
def dblNeg : Dbl → Dbl
  | .num q => .num (-q)
  | .posInf => .negInf
  | .negInf => .posInf
  | .nan => .nan

/-- The C library function fabs. -/
def dblAbs : Dbl → Dbl
  | .num q => .num |q|
  | .posInf => .posInf
  | .negInf => .posInf
  | .nan => .nan

/-- Double addition: NaN propagates, opposite infinities give NaN. -/
def dblAdd : Dbl → Dbl → Dbl
  | .num a, .num b => .num (a + b)
  | .num _, .posInf => .posInf
  | .num _, .negInf => .negInf
  | .posInf, .num _ => .posInf
  | .negInf, .num _ => .negInf
  | .posInf, .posInf => .posInf
  | .negInf, .negInf => .negInf
  | .posInf, .negInf => .nan
  | .negInf, .posInf => .nan
  | _, _ => .nan

/-- Double subtraction, as addition of the negation. -/
def dblSub (a b : Dbl) : Dbl := dblAdd a (dblNeg b)

/-- Double multiplication: NaN propagates, zero times infinity is NaN. -/
def dblMul : Dbl → Dbl → Dbl
  | .num a, .num b => .num (a * b)
  | .num a, .posInf => if 0 < a then .posInf else if a < 0 then .negInf else .nan
  | .num a, .negInf => if 0 < a then .negInf else if a < 0 then .posInf else .nan
  | .posInf, .num b => if 0 < b then .posInf else if b < 0 then .negInf else .nan
  | .negInf, .num b => if 0 < b then .negInf else if b < 0 then .posInf else .nan
  | .posInf, .posInf => .posInf
  | .posInf, .negInf => .negInf
  | .negInf, .posInf => .negInf
  | .negInf, .negInf => .posInf
  | _, _ => .nan

/-- Double division.  Signed zero is not modelled, so a nonzero value
divided by zero takes the sign of the numerator; 0/0 is NaN, inf/inf is
NaN, and a finite value divided by an infinity is 0. -/
def dblDiv : Dbl → Dbl → Dbl
  | .num a, .num b =>
      if b = 0 then (if a = 0 then .nan else if 0 < a then .posInf else .negInf)
      else .num (a / b)
  | .num _, .posInf => .num 0
  | .num _, .negInf => .num 0
  | .posInf, .num b => if b < 0 then .negInf else .posInf
  | .negInf, .num b => if b < 0 then .posInf else .negInf
  | _, _ => .nan

/-- Strict less-than on doubles; any comparison involving NaN is false. -/
def dblLt : Dbl → Dbl → Bool
  | .num a, .num b => a < b
  | .num _, .posInf => true
  | .num _, .negInf => false
  | .posInf, _ => false
  | .negInf, .num _ => true
  | .negInf, .posInf => true
  | .negInf, .negInf => false
  | _, _ => false

/-- Truncation toward zero of a rational, as C double-to-integral
truncation inside fmod. -/
def ratTrunc (q : ℚ) : ℤ := if 0 ≤ q then ⌊q⌋ else ⌈q⌉

/-- The C library function fmod: fmod(a, b) = a - trunc(a/b)*b for finite
nonzero b; the result keeps finite a unchanged when b is infinite; NaN
when a is infinite, when b is zero, or when either argument is NaN. -/
def dblFmod : Dbl → Dbl → Dbl
  | .num a, .num b => if b = 0 then .nan else .num (a - (ratTrunc (a / b) : ℚ) * b)
  | .num a, .posInf => .num a
  | .num a, .negInf => .num a
  | _, _ => .nan

/-- The NUM_TYPE enum of cilisp.h. -/
inductive NUM_TYPE where
  | INT_TYPE
  | DOUBLE_TYPE
  | NO_TYPE
deriving DecidableEq

/-- RET_VAL (= AST_NUMBER): a numeric value with a type tag; the value is
always stored as a double regardless of the tag. -/
structure RET_VAL where
  type : NUM_TYPE
  value : Dbl
deriving DecidableEq

/-- The NAN_RET_VAL macro of cilisp.h: (RET_VAL){DOUBLE_TYPE, NAN}. -/
def NAN_RET_VAL : RET_VAL := ⟨NUM_TYPE.DOUBLE_TYPE, Dbl.nan⟩

/-- The ZERO_RET_VAL macro of cilisp.h: (RET_VAL){INT_TYPE, 0}. -/
def ZERO_RET_VAL : RET_VAL := ⟨NUM_TYPE.INT_TYPE, Dbl.num 0⟩

/-- The FUNC_TYPE enum of cilisp.h. -/
inductive FUNC_TYPE where
  | NEG_FUNC
  | ABS_FUNC
  | ADD_FUNC
  | SUB_FUNC
  | MULT_FUNC
  | DIV_FUNC
  | REMAINDER_FUNC
  | EXP_FUNC
  | EXP2_FUNC
  | POW_FUNC
  | LOG_FUNC
  | SQRT_FUNC
  | CBRT_FUNC
  | HYPOT_FUNC
  | MAX_FUNC
  | MIN_FUNC
  | CUSTOM_FUNC
deriving DecidableEq

mutual
/-- AST_NODE of cilisp.h.  The four variants are the four
AST_NODE_TYPE cases; a function node's operand list and a scope node's
symbol table are the C sibling-linked lists rendered as Lean lists.
The `parent` back-pointer is not stored: evaluation receives the chain
of enclosing scopes' tables (which is exactly what the parent walk
visits) as an explicit environment. -/
inductive AST_NODE where
  | num (ntype : NUM_TYPE) (value : Dbl)
  | func (f : FUNC_TYPE) (opList : List AST_NODE)
  | sym (id : String)
  | scope (symbolTable : List SYMBOL_TABLE_NODE) (child : AST_NODE)

/-- SYMBOL_TABLE_NODE of cilisp.h: an id (NULL allowed, per createSymbol)
and a bound value; the `next` link is the enclosing Lean list.  The
declared NUM_TYPE field of the C struct is dead in src/cilisp.c (never
read or written) and is omitted. -/
inductive SYMBOL_TABLE_NODE where
  | mk (id : Option String) (value : AST_NODE)
end

/-- Accessor for the id field of a symbol table node. -/
def SYMBOL_TABLE_NODE.id : SYMBOL_TABLE_NODE → Option String
  | .mk i _ => i

/-- Accessor for the value field of a symbol table node. -/
def SYMBOL_TABLE_NODE.value : SYMBOL_TABLE_NODE → AST_NODE
  | .mk _ v => v

/-- The while loop of findSymbol (src/cilisp.c lines 65-70).  The C body
compares `id` against `symbolTable->id` — the ORIGINAL head of the
table, not the entry `current` being inspected — on every iteration;
`headId` is that head's id.  The result is the index of the entry at
which the comparison succeeded (the pointer `current` rendered as an
index into the table).  Comparing against a NULL head id would be
undefined behaviour in C (strcmp) and is idealized as a mismatch. -/
def findSymbolLoop (id : String) (headId : Option String) : List SYMBOL_TABLE_NODE → Option Nat
  | [] => none
  | _ :: rest =>
      if some id = headId then some 0
      else (findSymbolLoop id headId rest).map (· + 1)

/-- findSymbol (src/cilisp.c lines 59-72), returning the index of the
found entry (the returned pointer rendered as an index): a NULL search
id yields not-found, otherwise the loop runs with the comparison pinned
to the table head's id. -/
def findSymbolIdx (id : Option String) (symbolTable : List SYMBOL_TABLE_NODE) : Option Nat :=
  match id with
  | none => none
  | some s =>
      match symbolTable with
      | [] => none
      | head :: _ => findSymbolLoop s head.id symbolTable

/-- findSymbol returning the found entry itself. -/
def findSymbol (id : Option String) (symbolTable : List SYMBOL_TABLE_NODE) : Option SYMBOL_TABLE_NODE :=
  (findSymbolIdx id symbolTable).bind fun i => symbolTable.get? i

/-- Helper for the in-place mutation `old->value = new->value` of
addSymbolToTable: replace the value stored at index `i`, keeping the id. -/
def setValueAt (table : List SYMBOL_TABLE_NODE) (i : Nat) (v : AST_NODE) : List SYMBOL_TABLE_NODE :=
  match table.get? i with
  | some e => table.set i (.mk e.id v)
  | none => table

/-- addSymbolToTable (src/cilisp.c lines 196-209).  Returns the new head
(NULL rendered as the empty list) together with the diagnostics emitted.
When `new` is non-NULL and findSymbol locates an entry with the same
name, a "Duplicate assignment to symbol" warning is emitted, the new
value is installed into that entry, and the original table is returned;
when no entry is found, `new` is linked in front.  When `new` is NULL
the function returns `new`, i.e. NULL, whatever the table was. -/
def addSymbolToTable : Option SYMBOL_TABLE_NODE → List SYMBOL_TABLE_NODE → List SYMBOL_TABLE_NODE × List String
  | none, _ => ([], [])
  | some n, table =>
      match findSymbolIdx n.id table with
      | some i => (setValueAt table i n.value, ["Duplicate assignment to symbol"])
      | none => (n :: table, [])

/-- The inner while loop of evalSymbolNode (src/cilisp.c lines 668-673):
scan one symbol table for the first entry whose id equals the symbol's
id, comparing against the entry being inspected (`table->id`).  An entry
with a NULL id would make the C strcmp undefined behaviour and is
idealized as a mismatch. -/
def lookupInTable (id : String) : List SYMBOL_TABLE_NODE → Option AST_NODE
  | [] => none
  | e :: rest => if e.id = some id then some e.value else lookupInTable id rest

/-- The outer while loop of evalSymbolNode (src/cilisp.c lines 666-678):
walk the chain of enclosing scopes' tables outward, innermost first, and
stop at the first table containing a matching entry.  The found value's
parent is the scope node owning that table (wired by createScopeNode),
so the value is evaluated in the environment consisting of that table
and everything outward: the match returns that suffix of the chain. -/
def lookupChain (id : String) :
    List (List SYMBOL_TABLE_NODE) → Option (AST_NODE × List (List SYMBOL_TABLE_NODE))
  | [] => none
  | t :: rest =>
      match lookupInTable id t with
      | some v => some (v, t :: rest)
      | none => lookupChain id rest

/-- The math-library primitives called by src/cilisp.c.  They live in
libm, outside this repository, and are kept abstract. -/
structure MathLib where
  expD : Dbl → Dbl
  exp2D : Dbl → Dbl
  powD : Dbl → Dbl → Dbl
  logD : Dbl → Dbl
  sqrtD : Dbl → Dbl
  cbrtD : Dbl → Dbl

/-- A concrete MathLib instance used only to instantiate theorems at
concrete inputs; every theorem below quantifies over the MathLib. -/
def mathLib0 : MathLib where
  expD := fun _ => Dbl.nan
  exp2D := fun _ => Dbl.nan
  powD := fun _ _ => Dbl.nan
  logD := fun _ => Dbl.nan
  sqrtD := fun _ => Dbl.nan
  cbrtD := fun _ => Dbl.nan

/-- The result of one evaluation: the RET_VAL together with the warnings
printed, or `none` when the fuel ran out. -/
abbrev EvalResult := Option (RET_VAL × List String)

/-- evalNeg (src/cilisp.c lines 239-255): no operands warns and returns
NAN; an extra-operand warning is printed before evaluating; only the
first operand is evaluated. -/
def evalNeg (ev : AST_NODE → EvalResult) : List AST_NODE → EvalResult
  | [] => some (NAN_RET_VAL, ["neg called with no operands, NAN returned"])
  | op :: rest =>
      let w1 : List String := if rest.isEmpty then [] else ["neg called with extra operands"]
      match ev op with
      | none => none
      | some (num, w2) => some (⟨num.type, dblNeg num.value⟩, w1 ++ w2)

/-- evalAbs (src/cilisp.c lines 276-295): like evalNeg with fabs. -/
def evalAbs (ev : AST_NODE → EvalResult) : List AST_NODE → EvalResult
  | [] => some (NAN_RET_VAL, ["abs called with no operands, NAN returned"])
  | op :: rest =>
      let w1 : List String := if rest.isEmpty then [] else ["abs called with extra operands"]
      match ev op with
      | none => none
      | some (num, w2) => some (⟨num.type, dblAbs num.value⟩, w1 ++ w2)

/-- The while loop of evalAdd (src/cilisp.c lines 267-272): each
iteration overwrites result.type with the current operand's type and
adds the operand's value into result.value. -/
def evalAddLoop (ev : AST_NODE → EvalResult) (accType : NUM_TYPE) (accVal : Dbl) :
    List AST_NODE → EvalResult
  | [] => some (⟨accType, accVal⟩, [])
  | op :: rest =>
      match ev op with
      | none => none
      | some (num, w) =>
          match evalAddLoop ev num.type (dblAdd accVal num.value) rest with
          | none => none
          | some (r, w2) => some (r, w ++ w2)

/-- evalAdd (src/cilisp.c lines 257-274).  The C local `result` starts
with result.value = 0 and result.type uninitialized; `junk` is that
indeterminate initial type (it is always overwritten, since the loop
runs at least once on a non-empty operand list). -/
def evalAdd (ev : AST_NODE → EvalResult) (junk : NUM_TYPE) : List AST_NODE → EvalResult
  | [] => some (ZERO_RET_VAL, ["add called with no operands, 0 returned"])
  | ops => evalAddLoop ev junk (Dbl.num 0) ops

/-- evalSub (src/cilisp.c lines 297-324): exactly the first two operands
are evaluated; the too-many-operands warning comes after both
evaluations; the result type is Double if either operand evaluated to
Double, else Int, and the value is the raw double difference. -/
def evalSub (ev : AST_NODE → EvalResult) : List AST_NODE → EvalResult
  | [] => some (ZERO_RET_VAL, ["sub called with no operands, 0 returned"])
  | [_] => some (NAN_RET_VAL, ["sub called with 1 operand, NAN returned"])
  | a :: b :: rest =>
      match ev a with
      | none => none
      | some (firstOp, w1) =>
          match ev b with
          | none => none
          | some (secondOP, w2) =>
              let w3 : List String :=
                if rest.isEmpty then [] else ["sub called with too many operands, ignoring extra"]
              some (⟨if firstOp.type = NUM_TYPE.DOUBLE_TYPE ∨ secondOP.type = NUM_TYPE.DOUBLE_TYPE
                       then NUM_TYPE.DOUBLE_TYPE else NUM_TYPE.INT_TYPE,
                     dblSub firstOp.value secondOP.value⟩, w1 ++ w2 ++ w3)

/-- evalMult (src/cilisp.c lines 326-353): same shape as evalSub with
multiplication. -/
def evalMult (ev : AST_NODE → EvalResult) : List AST_NODE → EvalResult
  | [] => some (ZERO_RET_VAL, ["mult called with no operands, 0 returned"])
  | [_] => some (NAN_RET_VAL, ["mult called with 1 operand, NAN returned"])
  | a :: b :: rest =>
      match ev a with
      | none => none
      | some (firstOp, w1) =>
          match ev b with
          | none => none
          | some (secondOP, w2) =>
              let w3 : List String :=
                if rest.isEmpty then [] else ["mult called with too many operands, ignoring extra"]
              some (⟨if firstOp.type = NUM_TYPE.DOUBLE_TYPE ∨ secondOP.type = NUM_TYPE.DOUBLE_TYPE
                       then NUM_TYPE.DOUBLE_TYPE else NUM_TYPE.INT_TYPE,
                     dblMul firstOp.value secondOP.value⟩, w1 ++ w2 ++ w3)

/-- evalDiv (src/cilisp.c lines 355-382): same shape with division. -/
def evalDiv (ev : AST_NODE → EvalResult) : List AST_NODE → EvalResult
  | [] => some (ZERO_RET_VAL, ["div called with no operands, 0 returned"])
  | [_] => some (NAN_RET_VAL, ["div called with 1 operand, NAN returned"])
  | a :: b :: rest =>
      match ev a with
      | none => none
      | some (firstOp, w1) =>
          match ev b with
          | none => none
          | some (secondOP, w2) =>
              let w3 : List String :=
                if rest.isEmpty then [] else ["div called with too many operands, ignoring extra"]
              some (⟨if firstOp.type = NUM_TYPE.DOUBLE_TYPE ∨ secondOP.type = NUM_TYPE.DOUBLE_TYPE
                       then NUM_TYPE.DOUBLE_TYPE else NUM_TYPE.INT_TYPE,
                     dblDiv firstOp.value secondOP.value⟩, w1 ++ w2 ++ w3)

/-- evalRemainder (src/cilisp.c lines 384-411): same shape with
fabs(fmod(first, second)). -/
def evalRemainder (ev : AST_NODE → EvalResult) : List AST_NODE → EvalResult
  | [] => some (ZERO_RET_VAL, ["remainder called with no operands, 0 returned"])
  | [_] => some (NAN_RET_VAL, ["remainder called with 1 operand, NAN returned"])
  | a :: b :: rest =>
      match ev a with
      | none => none
      | some (firstOp, w1) =>
          match ev b with
          | none => none
          | some (secondOP, w2) =>
              let w3 : List String :=
                if rest.isEmpty then [] else ["remainder called with too many operands, ignoring extra"]
              some (⟨if firstOp.type = NUM_TYPE.DOUBLE_TYPE ∨ secondOP.type = NUM_TYPE.DOUBLE_TYPE
                       then NUM_TYPE.DOUBLE_TYPE else NUM_TYPE.INT_TYPE,
                     dblAbs (dblFmod firstOp.value secondOP.value)⟩, w1 ++ w2 ++ w3)

/-- evalPow (src/cilisp.c lines 452-480): same shape with the libm pow. -/
def evalPow (M : MathLib) (ev : AST_NODE → EvalResult) : List AST_NODE → EvalResult
  | [] => some (ZERO_RET_VAL, ["pow called with no operands, 0 returned"])
  | [_] => some (NAN_RET_VAL, ["pow called with 1 operand, NAN returned"])
  | a :: b :: rest =>
      match ev a with
      | none => none
      | some (firstOp, w1) =>
          match ev b with
          | none => none
          | some (secondOP, w2) =>
              let w3 : List String :=
                if rest.isEmpty then [] else ["pow called with too many operands, ignoring extra"]
              some (⟨if firstOp.type = NUM_TYPE.DOUBLE_TYPE ∨ secondOP.type = NUM_TYPE.DOUBLE_TYPE
                       then NUM_TYPE.DOUBLE_TYPE else NUM_TYPE.INT_TYPE,
                     M.powD firstOp.value secondOP.value⟩, w1 ++ w2 ++ w3)

/-- evalExp (src/cilisp.c lines 413-429): the result type is forced to
Double unconditionally. -/
def evalExp (M : MathLib) (ev : AST_NODE → EvalResult) : List AST_NODE → EvalResult
  | [] => some (NAN_RET_VAL, ["exp called with no operands, NAN returned"])
  | op :: rest =>
      let w1 : List String := if rest.isEmpty then [] else ["exp called with extra operands"]
      match ev op with
      | none => none
      | some (num, w2) => some (⟨NUM_TYPE.DOUBLE_TYPE, M.expD num.value⟩, w1 ++ w2)

/-- evalExp2 (src/cilisp.c lines 431-450): the result keeps the
operand's type and is re-tagged Double only when the computed value
compares less than zero. -/
def evalExp2 (M : MathLib) (ev : AST_NODE → EvalResult) : List AST_NODE → EvalResult
  | [] => some (NAN_RET_VAL, ["exp2 called with no operands, NAN returned"])
  | op :: rest =>
      let w1 : List String := if rest.isEmpty then [] else ["exp2 called with extra operands"]
      match ev op with
      | none => none
      | some (num, w2) =>
          let v := M.exp2D num.value
          some (⟨if dblLt v (Dbl.num 0) then NUM_TYPE.DOUBLE_TYPE else num.type, v⟩, w1 ++ w2)

/-- evalLog (src/cilisp.c lines 482-498): forces Double. -/
def evalLog (M : MathLib) (ev : AST_NODE → EvalResult) : List AST_NODE → EvalResult
  | [] => some (NAN_RET_VAL, ["log called with no operands, NAN returned"])
  | op :: rest =>
      let w1 : List String := if rest.isEmpty then [] else ["log called with extra operands"]
      match ev op with
      | none => none
      | some (num, w2) => some (⟨NUM_TYPE.DOUBLE_TYPE, M.logD num.value⟩, w1 ++ w2)

/-- evalSqrt (src/cilisp.c lines 500-516): forces Double. -/
def evalSqrt (M : MathLib) (ev : AST_NODE → EvalResult) : List AST_NODE → EvalResult
  | [] => some (NAN_RET_VAL, ["sqrt called with no operands, NAN returned"])
  | op :: rest =>
      let w1 : List String := if rest.isEmpty then [] else ["sqrt called with extra operands"]
      match ev op with
      | none => none
      | some (num, w2) => some (⟨NUM_TYPE.DOUBLE_TYPE, M.sqrtD num.value⟩, w1 ++ w2)

/-- evalCbrt (src/cilisp.c lines 518-534): forces Double. -/
def evalCbrt (M : MathLib) (ev : AST_NODE → EvalResult) : List AST_NODE → EvalResult
  | [] => some (NAN_RET_VAL, ["cbrt called with no operands, NAN returned"])
  | op :: rest =>
      let w1 : List String := if rest.isEmpty then [] else ["cbrt called with extra operands"]
      match ev op with
      | none => none
      | some (num, w2) => some (⟨NUM_TYPE.DOUBLE_TYPE, M.cbrtD num.value⟩, w1 ++ w2)

/-- The while loop of evalHypot (src/cilisp.c lines 546-550): sum the
squares (via the libm pow) of the evaluated operands. -/
def evalHypotLoop (M : MathLib) (ev : AST_NODE → EvalResult) (accVal : Dbl) :
    List AST_NODE → Option (Dbl × List String)
  | [] => some (accVal, [])
  | op :: rest =>
      match ev op with
      | none => none
      | some (num, w) =>
          match evalHypotLoop M ev (dblAdd accVal (M.powD num.value (Dbl.num 2))) rest with
          | none => none
          | some (v, w2) => some (v, w ++ w2)

/-- evalHypot (src/cilisp.c lines 536-554): square root of the sum of
squares, type Double. -/
def evalHypot (M : MathLib) (ev : AST_NODE → EvalResult) : List AST_NODE → EvalResult
  | [] => some (ZERO_RET_VAL, ["hypot called with no operands, 0 returned"])
  | ops =>
      match evalHypotLoop M ev (Dbl.num 0) ops with
      | none => none
      | some (v, w) => some (⟨NUM_TYPE.DOUBLE_TYPE, M.sqrtD v⟩, w)

/-- The while loop of evalMin (src/cilisp.c lines 568-575): when the
current operand's value compares strictly below the accumulator's value,
the accumulator takes the operand's type and value; otherwise — also on
any NaN comparison — the accumulator is kept unchanged. -/
def evalMinLoop (ev : AST_NODE → EvalResult) (acc : RET_VAL) : List AST_NODE → EvalResult
  | [] => some (acc, [])
  | op :: rest =>
      match ev op with
      | none => none
      | some (num, w) =>
          let acc2 : RET_VAL := if dblLt num.value acc.value then ⟨num.type, num.value⟩ else acc
          match evalMinLoop ev acc2 rest with
          | none => none
          | some (r, w2) => some (r, w ++ w2)

/-- evalMin (src/cilisp.c lines 556-577).  The C local `result` is never
initialized: the first operand's evaluation sets only result.value, and
result.type is written only inside the replacement branch of the loop;
`junk` is the indeterminate initial contents of result.type, which is
returned whenever the first operand remains the minimum. -/
def evalMin (ev : AST_NODE → EvalResult) (junk : NUM_TYPE) : List AST_NODE → EvalResult
  | [] => some (ZERO_RET_VAL, ["min called with no operands, 0 returned"])
  | op :: rest =>
      match ev op with
      | none => none
      | some (num, w) =>
          match evalMinLoop ev ⟨junk, num.value⟩ rest with
          | none => none
          | some (r, w2) => some (r, w ++ w2)

/-- The while loop of evalMax (src/cilisp.c lines 591-598): replacement
happens when the operand's value compares strictly above the
accumulator's value. -/
def evalMaxLoop (ev : AST_NODE → EvalResult) (acc : RET_VAL) : List AST_NODE → EvalResult
  | [] => some (acc, [])
  | op :: rest =>
      match ev op with
      | none => none
      | some (num, w) =>
          let acc2 : RET_VAL := if dblLt acc.value num.value then ⟨num.type, num.value⟩ else acc
          match evalMaxLoop ev acc2 rest with
          | none => none
          | some (r, w2) => some (r, w ++ w2)

/-- evalMax (src/cilisp.c lines 579-600): like evalMin, with the same
uninitialized result.type modelled by `junk`. -/
def evalMax (ev : AST_NODE → EvalResult) (junk : NUM_TYPE) : List AST_NODE → EvalResult
  | [] => some (ZERO_RET_VAL, ["max called with no operands, 0 returned"])
  | op :: rest =>
      match ev op with
      | none => none
      | some (num, w) =>
          match evalMaxLoop ev ⟨junk, num.value⟩ rest with
          | none => none
          | some (r, w2) => some (r, w ++ w2)

/-- evalFuncNode (src/cilisp.c lines 602-633): dispatch on the function
tag; the default (CUSTOM_FUNC) returns NAN_RET_VAL with no warning. -/
def evalFuncNode (M : MathLib) (ev : AST_NODE → EvalResult) (junk : NUM_TYPE)
    (f : FUNC_TYPE) (opList : List AST_NODE) : EvalResult :=
  match f with
  | .NEG_FUNC => evalNeg ev opList
  | .ADD_FUNC => evalAdd ev junk opList
  | .ABS_FUNC => evalAbs ev opList
  | .SUB_FUNC => evalSub ev opList
  | .MULT_FUNC => evalMult ev opList
  | .DIV_FUNC => evalDiv ev opList
  | .REMAINDER_FUNC => evalRemainder ev opList
  | .EXP_FUNC => evalExp M ev opList
  | .EXP2_FUNC => evalExp2 M ev opList
  | .POW_FUNC => evalPow M ev opList
  | .LOG_FUNC => evalLog M ev opList
  | .SQRT_FUNC => evalSqrt M ev opList
  | .CBRT_FUNC => evalCbrt M ev opList
  | .HYPOT_FUNC => evalHypot M ev opList
  | .MIN_FUNC => evalMin ev junk opList
  | .MAX_FUNC => evalMax ev junk opList
  | .CUSTOM_FUNC => some (NAN_RET_VAL, [])

/-- eval (src/cilisp.c lines 683-702), fuel-indexed.  `env` is the chain
of enclosing scopes' symbol tables, innermost first (what the parent
walk of evalSymbolNode traverses); `junk` is threaded to the functions
whose C locals are read uninitialized.  A number node returns its
literal RET_VAL (evalNumNode); a function node dispatches
(evalFuncNode); a scope node evaluates its child with its table pushed
(evalScope, with the enclosure wired by createScopeNode); a symbol node
resolves outward and evaluates the found binding in the environment of
the scope that bound it, or warns and returns NAN_RET_VAL when no scope
binds the name (evalSymbolNode, lines 658-681). -/
def eval (M : MathLib) : Nat → List (List SYMBOL_TABLE_NODE) → NUM_TYPE → AST_NODE → EvalResult
  | 0, _, _, _ => none
  | fuel + 1, env, junk, node =>
      match node with
      | .num t v => some (⟨t, v⟩, [])
      | .func f ops => evalFuncNode M (fun n => eval M fuel env junk n) junk f ops
      | .scope table child => eval M fuel (table :: env) junk child
      | .sym id =>
          match lookupChain id env with
          | some (v, envV) => eval M fuel envV junk v
          | none => some (NAN_RET_VAL, ["undefined symbol, nan returned"])

/-! Theorems. -/

/-- C1: claimed — local lookup returns the first entry whose name equals
the searched name even when that entry is not the table head.  The code
fails this: findSymbol's loop compares the searched id against the table
HEAD's id on every iteration (src/cilisp.c line 66 reads
`symbolTable->id`, not `current->id`), so searching a two-entry table
whose second entry is named "y" for "y" returns not-found even though
the entry is present (second conjunct exhibits the entry).  Searching
with a null name does yield not-found, as the claim says. -/
theorem findSymbol_compares_against_head :
    findSymbol (some "y")
      [.mk (some "x") (.num .INT_TYPE (.num 1)), .mk (some "y") (.num .INT_TYPE (.num 2))] = none
    ∧ (([SYMBOL_TABLE_NODE.mk (some "x") (.num .INT_TYPE (.num 1)),
         .mk (some "y") (.num .INT_TYPE (.num 2))].get? 1).map SYMBOL_TABLE_NODE.id
        = some (some "y"))
    ∧ findSymbol none
        [.mk (some "x") (.num .INT_TYPE (.num 1)), .mk (some "y") (.num .INT_TYPE (.num 2))] = none :=
  ⟨rfl, rfl, rfl⟩

/-- C2: claimed — inserting an entry whose name already occurs anywhere
in the table emits one diagnostic, installs the new value into the
existing entry, and keeps names unique.  The code fails this whenever
the duplicate name is not the head's name, because duplicate detection
goes through the broken findSymbol: inserting x into the table [y, x]
links a second x entry in front, emits no diagnostic, and leaves two
entries named x (second conjunct counts them).  Only a duplicate of the
HEAD entry is detected (third conjunct shows the head case working as
the claim describes). -/
theorem addSymbolToTable_duplicate_nonhead :
    (addSymbolToTable (some (.mk (some "x") (.num .INT_TYPE (.num 3))))
      [.mk (some "y") (.num .INT_TYPE (.num 1)), .mk (some "x") (.num .INT_TYPE (.num 2))]
      = ([.mk (some "x") (.num .INT_TYPE (.num 3)), .mk (some "y") (.num .INT_TYPE (.num 1)),
          .mk (some "x") (.num .INT_TYPE (.num 2))], []))
    ∧ (((addSymbolToTable (some (.mk (some "x") (.num .INT_TYPE (.num 3))))
        [.mk (some "y") (.num .INT_TYPE (.num 1)),
         .mk (some "x") (.num .INT_TYPE (.num 2))]).1.map SYMBOL_TABLE_NODE.id).count (some "x") = 2)
    ∧ (addSymbolToTable (some (.mk (some "x") (.num .INT_TYPE (.num 2))))
        [.mk (some "x") (.num .INT_TYPE (.num 1))]
        = ([.mk (some "x") (.num .INT_TYPE (.num 2))], ["Duplicate assignment to symbol"])) := by
  refine ⟨rfl, by decide, rfl⟩

/-- C10: addSymbolToTable called with a NULL new entry returns NULL (the
empty table) rather than the existing table, discarding it: the C body
guards all its work behind `if(new != NULL)` and ends with `return new`,
so a null `new` is returned as-is whatever the table held. -/
theorem addSymbolToTable_null_new_entry (e : SYMBOL_TABLE_NODE) (t : List SYMBOL_TABLE_NODE) :
    addSymbolToTable none (e :: t) = ([], []) ∧ (e :: t : List SYMBOL_TABLE_NODE) ≠ [] :=
  ⟨rfl, by simp⟩

/-- C4: a Symbol node whose name is bound in no table along the outward
walk evaluates, at any fuel, to the fallback Numeric Value
{type = Double, value = NaN} after emitting the undefined-symbol
diagnostic — evaluation returns normally rather than aborting. -/
theorem undefined_symbol_yields_nan (M : MathLib) (fuel : Nat)
    (env : List (List SYMBOL_TABLE_NODE)) (junk : NUM_TYPE) (id : String)
    (h : lookupChain id env = none) :
    eval M (fuel + 1) env junk (.sym id)
      = some (⟨NUM_TYPE.DOUBLE_TYPE, Dbl.nan⟩, ["undefined symbol, nan returned"]) := by
  simp [eval, h, NAN_RET_VAL]

/-- Witness for C4: the symbol z is unbound in the empty environment and
evaluates to {Double, NaN} with the diagnostic. -/
theorem undefined_symbol_yields_nan_witness :
    eval mathLib0 1 [] .NO_TYPE (.sym "z")
      = some (⟨NUM_TYPE.DOUBLE_TYPE, Dbl.nan⟩, ["undefined symbol, nan returned"]) :=
  undefined_symbol_yields_nan mathLib0 0 [] .NO_TYPE "z" rfl

/-- C3: symbol resolution takes the first matching binding on the
outward walk and evaluates it.  First conjunct: whenever the innermost
table binds the name, resolution evaluates that binding — whatever the
outer environment holds, so an inner binding shadows any outer one.
Second and third conjuncts: with outer x = 1 and inner x = 2, a
reference to x inside the inner scope evaluates to 2 and a reference
directly under the outer scope evaluates to 1.  Fourth conjunct: a
binding is evaluated, not returned verbatim — x bound to neg(5)
evaluates to -5. -/
theorem symbol_resolution_shadowing :
    (∀ (M : MathLib) (fuel : Nat) (t : List SYMBOL_TABLE_NODE)
        (env : List (List SYMBOL_TABLE_NODE)) (junk : NUM_TYPE) (id : String) (v : AST_NODE),
        lookupInTable id t = some v →
        eval M (fuel + 1) (t :: env) junk (.sym id) = eval M fuel (t :: env) junk v)
    ∧ (∀ (M : MathLib) (junk : NUM_TYPE), eval M 5 [] junk
        (.scope [.mk (some "x") (.num .INT_TYPE (.num 1))]
          (.scope [.mk (some "x") (.num .INT_TYPE (.num 2))] (.sym "x")))
        = some (⟨NUM_TYPE.INT_TYPE, Dbl.num 2⟩, []))
    ∧ (∀ (M : MathLib) (junk : NUM_TYPE), eval M 5 [] junk
        (.scope [.mk (some "x") (.num .INT_TYPE (.num 1))] (.sym "x"))
        = some (⟨NUM_TYPE.INT_TYPE, Dbl.num 1⟩, []))
    ∧ (∀ (M : MathLib) (junk : NUM_TYPE), eval M 5 [] junk
        (.scope [.mk (some "x") (.func .NEG_FUNC [.num .INT_TYPE (.num 5)])] (.sym "x"))
        = some (⟨NUM_TYPE.INT_TYPE, Dbl.num (-5)⟩, [])) := by
  refine ⟨?_, fun M junk => rfl, fun M junk => rfl, fun M junk => rfl⟩
  intro M fuel t env junk id v h
  simp [eval, lookupChain, h]

/-- Witness for C3: in a one-scope chain binding x to the literal 7,
resolving x evaluates that binding. -/
theorem symbol_resolution_shadowing_witness :
    eval mathLib0 1 [[SYMBOL_TABLE_NODE.mk (some "x") (.num .INT_TYPE (.num 7))]] .NO_TYPE (.sym "x")
      = eval mathLib0 0 [[SYMBOL_TABLE_NODE.mk (some "x") (.num .INT_TYPE (.num 7))]] .NO_TYPE
          (.num .INT_TYPE (.num 7)) :=
  symbol_resolution_shadowing.1 mathLib0 0 [.mk (some "x") (.num .INT_TYPE (.num 7))] [] .NO_TYPE
    "x" (.num .INT_TYPE (.num 7)) rfl

/-- C5: each two-operand arithmetic function (sub, mult, div, remainder,
pow) applied to exactly two operands returns the type Double when either
evaluated operand is Double and Int when both are Int, with the raw
double result of the operation as the value; in particular
sub(Int 5, Int 2) = {Int, 3} and sub(Int 5, Double 2.5) = {Double, 2.5}. -/
theorem binary_arith_promotion (M : MathLib) (fuel : Nat)
    (env : List (List SYMBOL_TABLE_NODE)) (junk : NUM_TYPE) (a b : AST_NODE)
    (ra rb : RET_VAL) (wa wb : List String)
    (ha : eval M fuel env junk a = some (ra, wa))
    (hb : eval M fuel env junk b = some (rb, wb)) :
    (eval M (fuel + 1) env junk (.func .SUB_FUNC [a, b])
      = some (⟨if ra.type = NUM_TYPE.DOUBLE_TYPE ∨ rb.type = NUM_TYPE.DOUBLE_TYPE
                 then NUM_TYPE.DOUBLE_TYPE else NUM_TYPE.INT_TYPE,
               dblSub ra.value rb.value⟩, wa ++ wb))
    ∧ (eval M (fuel + 1) env junk (.func .MULT_FUNC [a, b])
      = some (⟨if ra.type = NUM_TYPE.DOUBLE_TYPE ∨ rb.type = NUM_TYPE.DOUBLE_TYPE
                 then NUM_TYPE.DOUBLE_TYPE else NUM_TYPE.INT_TYPE,
               dblMul ra.value rb.value⟩, wa ++ wb))
    ∧ (eval M (fuel + 1) env junk (.func .DIV_FUNC [a, b])
      = some (⟨if ra.type = NUM_TYPE.DOUBLE_TYPE ∨ rb.type = NUM_TYPE.DOUBLE_TYPE
                 then NUM_TYPE.DOUBLE_TYPE else NUM_TYPE.INT_TYPE,
               dblDiv ra.value rb.value⟩, wa ++ wb))
    ∧ (eval M (fuel + 1) env junk (.func .REMAINDER_FUNC [a, b])
      = some (⟨if ra.type = NUM_TYPE.DOUBLE_TYPE ∨ rb.type = NUM_TYPE.DOUBLE_TYPE
                 then NUM_TYPE.DOUBLE_TYPE else NUM_TYPE.INT_TYPE,
               dblAbs (dblFmod ra.value rb.value)⟩, wa ++ wb))
    ∧ (eval M (fuel + 1) env junk (.func .POW_FUNC [a, b])
      = some (⟨if ra.type = NUM_TYPE.DOUBLE_TYPE ∨ rb.type = NUM_TYPE.DOUBLE_TYPE
                 then NUM_TYPE.DOUBLE_TYPE else NUM_TYPE.INT_TYPE,
               M.powD ra.value rb.value⟩, wa ++ wb))
    ∧ (∀ (junk2 : NUM_TYPE), eval M 2 [] junk2
        (.func .SUB_FUNC [.num .INT_TYPE (.num 5), .num .INT_TYPE (.num 2)])
        = some (⟨NUM_TYPE.INT_TYPE, Dbl.num 3⟩, []))
    ∧ (∀ (junk2 : NUM_TYPE), eval M 2 [] junk2
        (.func .SUB_FUNC [.num .INT_TYPE (.num 5), .num .DOUBLE_TYPE (.num (5/2))])
        = some (⟨NUM_TYPE.DOUBLE_TYPE, Dbl.num (5/2)⟩, [])) := by
  refine ⟨?_, ?_, ?_, ?_, ?_, ?_, ?_⟩
  · simp [eval, evalFuncNode, evalSub, ha, hb]
  · simp [eval, evalFuncNode, evalMult, ha, hb]
  · simp [eval, evalFuncNode, evalDiv, ha, hb]
  · simp [eval, evalFuncNode, evalRemainder, ha, hb]
  · simp [eval, evalFuncNode, evalPow, ha, hb]
  · intro junk2
    norm_num [eval, evalFuncNode, evalSub, dblSub, dblAdd, dblNeg]
    decide
  · intro junk2
    norm_num [eval, evalFuncNode, evalSub, dblSub, dblAdd, dblNeg]

/-- Witness for C5: sub on the literal operands Int 5 and Double 2.5
evaluates both operands and applies the promotion rule. -/
theorem binary_arith_promotion_witness :
    eval mathLib0 2 [] .NO_TYPE
      (.func .SUB_FUNC [.num .INT_TYPE (.num 5), .num .DOUBLE_TYPE (.num (5/2))])
      = some (⟨if NUM_TYPE.INT_TYPE = NUM_TYPE.DOUBLE_TYPE ∨ NUM_TYPE.DOUBLE_TYPE = NUM_TYPE.DOUBLE_TYPE
                 then NUM_TYPE.DOUBLE_TYPE else NUM_TYPE.INT_TYPE,
               dblSub (Dbl.num 5) (Dbl.num (5/2))⟩, [] ++ []) :=
  (binary_arith_promotion mathLib0 1 [] .NO_TYPE (.num .INT_TYPE (.num 5))
    (.num .DOUBLE_TYPE (.num (5/2))) ⟨.INT_TYPE, .num 5⟩ ⟨.DOUBLE_TYPE, .num (5/2)⟩ [] []
    rfl rfl).1

/-- Each iteration of the add loop on number literals installs the
current operand's type and accumulates its value; the whole loop
therefore computes the left fold of that pair step. -/
theorem evalAddLoop_literals (ev : AST_NODE → EvalResult)
    (hev : ∀ t v, ev (.num t v) = some (⟨t, v⟩, []))
    (nums : List (NUM_TYPE × Dbl)) (accT : NUM_TYPE) (accV : Dbl) :
    evalAddLoop ev accT accV (nums.map fun p => .num p.1 p.2)
      = some (⟨(nums.foldl (fun acc p => (p.1, dblAdd acc.2 p.2)) (accT, accV)).1,
               (nums.foldl (fun acc p => (p.1, dblAdd acc.2 p.2)) (accT, accV)).2⟩, []) := by
  induction nums generalizing accT accV with
  | nil => simp [evalAddLoop]
  | cons p rest ih => simp [evalAddLoop, hev, ih]

/-- The value component of the pair fold is the plain sum fold. -/
theorem foldl_addpair_snd (nums : List (NUM_TYPE × Dbl)) (acc : NUM_TYPE × Dbl) :
    (nums.foldl (fun acc p => (p.1, dblAdd acc.2 p.2)) acc).2
      = nums.foldl (fun a p => dblAdd a p.2) acc.2 := by
  induction nums generalizing acc with
  | nil => rfl
  | cons p rest ih => simp [List.foldl_cons, ih]

/-- The type component of the pair fold over a non-empty list is the
last element's type. -/
theorem foldl_addpair_fst (nums : List (NUM_TYPE × Dbl)) (hne : nums ≠ [])
    (acc : NUM_TYPE × Dbl) :
    (nums.foldl (fun acc p => (p.1, dblAdd acc.2 p.2)) acc).1 = (nums.getLast hne).1 := by
  induction nums generalizing acc with
  | nil => exact absurd rfl hne
  | cons p rest ih =>
    cases rest with
    | nil => simp [List.foldl_cons]
    | cons q r =>
      rw [List.foldl_cons, ih (by simp)]
      simp [List.getLast]

/-- C6: add with zero operands returns {Int, 0} after a diagnostic; with
one or more operands the value is the left-to-right sum of the evaluated
operands starting from 0 and the type is the type of the LAST operand
evaluated (the documented last-operand-wins defect), whatever the
indeterminate initial contents of the result's type field were; in
particular add(Int 3, Int 4, Double 1.5) = {Double, 8.5}. -/
theorem add_last_operand_type_wins (M : MathLib) (fuel : Nat)
    (env : List (List SYMBOL_TABLE_NODE)) (junk : NUM_TYPE) :
    (eval M (fuel + 1) env junk (.func .ADD_FUNC [])
      = some (⟨NUM_TYPE.INT_TYPE, Dbl.num 0⟩, ["add called with no operands, 0 returned"]))
    ∧ (∀ (nums : List (NUM_TYPE × Dbl)) (hne : nums ≠ []),
        eval M (fuel + 2) env junk (.func .ADD_FUNC (nums.map fun p => .num p.1 p.2))
          = some (⟨(nums.getLast hne).1,
                   nums.foldl (fun a p => dblAdd a p.2) (Dbl.num 0)⟩, []))
    ∧ (eval M 2 env junk (.func .ADD_FUNC
        [.num .INT_TYPE (.num 3), .num .INT_TYPE (.num 4), .num .DOUBLE_TYPE (.num (3/2))])
      = some (⟨NUM_TYPE.DOUBLE_TYPE, Dbl.num (17/2)⟩, [])) := by
  refine ⟨by simp [eval, evalFuncNode, evalAdd, ZERO_RET_VAL], ?_, ?_⟩
  · intro nums hne
    obtain ⟨p, rest, rfl⟩ : ∃ p rest, nums = p :: rest := by
      cases nums with
      | nil => exact absurd rfl hne
      | cons p rest => exact ⟨p, rest, rfl⟩
    have hloop := evalAddLoop_literals (fun n => eval M (fuel + 1) env junk n)
      (fun t v => rfl) (p :: rest) junk (Dbl.num 0)
    show evalAddLoop (fun n => eval M (fuel + 1) env junk n) junk (Dbl.num 0)
        ((p :: rest).map fun p => .num p.1 p.2) = _
    rw [hloop, foldl_addpair_snd, foldl_addpair_fst (p :: rest) hne]
  · norm_num [eval, evalFuncNode, evalAdd, evalAddLoop, dblAdd]

/-- Witness for C6: add on the single literal operand Double 1 sums to
1 and takes that operand's type. -/
theorem add_last_operand_type_wins_witness :
    eval mathLib0 2 [] .NO_TYPE (.func .ADD_FUNC [.num .DOUBLE_TYPE (.num 1)])
      = some (⟨NUM_TYPE.DOUBLE_TYPE, Dbl.num 1⟩, []) := by
  have h := (add_last_operand_type_wins mathLib0 0 [] .NO_TYPE).2.1
    [(NUM_TYPE.DOUBLE_TYPE, Dbl.num 1)] (by simp)
  simpa [dblAdd] using h

/-- C7: claimed — min and max with one operand return the operand's
evaluated value as-is including its type, and the scan keeps the current
extremum's type and value.  The code fails the type part: the C local
`result` is never initialized and `result.type` is assigned only when a
later operand replaces the current extremum, so a single-operand call
returns whatever garbage the stack held as the type — the first and
third conjuncts return the junk contents Int, the second returns junk
contents NoType, for the same operand Double 3.5 — instead of Double.
The parts of the claim that do hold: zero operands give {Int, 0} after a
diagnostic (fourth conjunct), and max(Int 1, Double 3.5, Int 2) =
{Double, 3.5} because a replacement at 3.5 does set the type (fifth
conjunct). -/
theorem minmax_type_uninitialized :
    (eval mathLib0 2 [] .INT_TYPE (.func .MIN_FUNC [.num .DOUBLE_TYPE (.num (7/2))])
      = some (⟨NUM_TYPE.INT_TYPE, Dbl.num (7/2)⟩, []))
    ∧ (eval mathLib0 2 [] .NO_TYPE (.func .MIN_FUNC [.num .DOUBLE_TYPE (.num (7/2))])
      = some (⟨NUM_TYPE.NO_TYPE, Dbl.num (7/2)⟩, []))
    ∧ (eval mathLib0 2 [] .INT_TYPE (.func .MAX_FUNC [.num .DOUBLE_TYPE (.num (7/2))])
      = some (⟨NUM_TYPE.INT_TYPE, Dbl.num (7/2)⟩, []))
    ∧ (∀ (junk : NUM_TYPE), eval mathLib0 1 [] junk (.func .MIN_FUNC [])
      = some (⟨NUM_TYPE.INT_TYPE, Dbl.num 0⟩, ["min called with no operands, 0 returned"]))
    ∧ (∀ (junk : NUM_TYPE), eval mathLib0 2 [] junk (.func .MAX_FUNC
        [.num .INT_TYPE (.num 1), .num .DOUBLE_TYPE (.num (7/2)), .num .INT_TYPE (.num 2)])
      = some (⟨NUM_TYPE.DOUBLE_TYPE, Dbl.num (7/2)⟩, [])) := by
  refine ⟨rfl, rfl, rfl, fun junk => rfl, fun junk => ?_⟩
  norm_num [eval, evalFuncNode, evalMax, evalMaxLoop, dblLt]

/-- C8: sub, mult, div, remainder and pow called with more than two
operands produce exactly the result of the same function on the first
two operands, with the too-many-operands warning appended; the operands
past the second are never evaluated, so the result does not depend on
them (they are universally quantified on the left and absent on the
right). -/
theorem extra_operands_ignored (M : MathLib) (fuel : Nat)
    (env : List (List SYMBOL_TABLE_NODE)) (junk : NUM_TYPE)
    (a b c : AST_NODE) (rest : List AST_NODE) :
    (eval M (fuel + 1) env junk (.func .SUB_FUNC (a :: b :: c :: rest))
      = (eval M (fuel + 1) env junk (.func .SUB_FUNC [a, b])).map
          (fun rw => (rw.1, rw.2 ++ ["sub called with too many operands, ignoring extra"])))
    ∧ (eval M (fuel + 1) env junk (.func .MULT_FUNC (a :: b :: c :: rest))
      = (eval M (fuel + 1) env junk (.func .MULT_FUNC [a, b])).map
          (fun rw => (rw.1, rw.2 ++ ["mult called with too many operands, ignoring extra"])))
    ∧ (eval M (fuel + 1) env junk (.func .DIV_FUNC (a :: b :: c :: rest))
      = (eval M (fuel + 1) env junk (.func .DIV_FUNC [a, b])).map
          (fun rw => (rw.1, rw.2 ++ ["div called with too many operands, ignoring extra"])))
    ∧ (eval M (fuel + 1) env junk (.func .REMAINDER_FUNC (a :: b :: c :: rest))
      = (eval M (fuel + 1) env junk (.func .REMAINDER_FUNC [a, b])).map
          (fun rw => (rw.1, rw.2 ++ ["remainder called with too many operands, ignoring extra"])))
    ∧ (eval M (fuel + 1) env junk (.func .POW_FUNC (a :: b :: c :: rest))
      = (eval M (fuel + 1) env junk (.func .POW_FUNC [a, b])).map
          (fun rw => (rw.1, rw.2 ++ ["pow called with too many operands, ignoring extra"]))) := by
  refine ⟨?_, ?_, ?_, ?_, ?_⟩ <;>
  · cases ha : eval M fuel env junk a with
    | none =>
        simp [eval, evalFuncNode, evalSub, evalMult, evalDiv, evalRemainder, evalPow, ha]
    | some pa =>
        obtain ⟨ra, wa⟩ := pa
        cases hb : eval M fuel env junk b with
        | none =>
            simp [eval, evalFuncNode, evalSub, evalMult, evalDiv, evalRemainder, evalPow, ha, hb]
        | some pb =>
            obtain ⟨rb, wb⟩ := pb
            simp [eval, evalFuncNode, evalSub, evalMult, evalDiv, evalRemainder, evalPow, ha, hb]

/-- C9: exp2 with one operand computes the libm exp2 of the evaluated
operand and keeps the operand's type unless the computed value compares
less than zero, in which case the type is forced to Double; exp, log,
sqrt and cbrt force Double unconditionally. -/
theorem exp2_negative_forces_double (M : MathLib) (fuel : Nat)
    (env : List (List SYMBOL_TABLE_NODE)) (junk : NUM_TYPE) (a : AST_NODE) :
    (eval M (fuel + 1) env junk (.func .EXP2_FUNC [a])
      = (eval M fuel env junk a).map
          (fun rw => (⟨if dblLt (M.exp2D rw.1.value) (Dbl.num 0) then NUM_TYPE.DOUBLE_TYPE
                          else rw.1.type,
                       M.exp2D rw.1.value⟩, rw.2)))
    ∧ (eval M (fuel + 1) env junk (.func .EXP_FUNC [a])
      = (eval M fuel env junk a).map
          (fun rw => (⟨NUM_TYPE.DOUBLE_TYPE, M.expD rw.1.value⟩, rw.2)))
    ∧ (eval M (fuel + 1) env junk (.func .LOG_FUNC [a])
      = (eval M fuel env junk a).map
          (fun rw => (⟨NUM_TYPE.DOUBLE_TYPE, M.logD rw.1.value⟩, rw.2)))
    ∧ (eval M (fuel + 1) env junk (.func .SQRT_FUNC [a])
      = (eval M fuel env junk a).map
          (fun rw => (⟨NUM_TYPE.DOUBLE_TYPE, M.sqrtD rw.1.value⟩, rw.2)))
    ∧ (eval M (fuel + 1) env junk (.func .CBRT_FUNC [a])
      = (eval M fuel env junk a).map
          (fun rw => (⟨NUM_TYPE.DOUBLE_TYPE, M.cbrtD rw.1.value⟩, rw.2))) := by
  refine ⟨?_, ?_, ?_, ?_, ?_⟩ <;>
  · cases ha : eval M fuel env junk a with
    | none => simp [eval, evalFuncNode, evalExp2, evalExp, evalLog, evalSqrt, evalCbrt, ha]
    | some pa =>
        obtain ⟨num, w⟩ := pa
        simp [eval, evalFuncNode, evalExp2, evalExp, evalLog, evalSqrt, evalCbrt, ha]

end CILisp
